import Mathlib

/-!
# Verification of the on-air indicator engine

A shallow embedding of the event correlation and notification fan-out
engine of the `on-air` repository (source: `src/ts/index.ts`), together
with theorems settling the specification's claims about it.

The embedding translates, from the source:
* the line classifier and state tracker inside `LogTailer.start`,
* the actuator decision logic of `hardwareSubscriberFactory`,
  `onAirSubscriberFactory` and `offAirSubscriberFactory`,
* the `debounce` and `throttle` rate-limiter wrappers (with virtual time),
* the `PubSub` subscribe / unsubscribe / publish operations,
* the websocket `open` / `message` / `close` handlers of the server.
-/

namespace OnAir

/-! ## Data model (`LogEvent`, `LogState`, `WSEvent`, `PubSubEvent`) -/

/-- The four hardware transition kinds of `LogEvent.type`. -/
inductive LogEventType where
  | camera_on
  | camera_off
  | mic_on
  | mic_off
deriving DecidableEq, Repr, Fintype

/-- `LogState`: the tracker's mutable `\x7b camera, mic \x7d` record. -/
structure LogState where
  camera : Bool
  mic : Bool
deriving DecidableEq, Repr, Fintype

/-- `LogEvent`: a hardware transition event; `camera` and `mic` are the
spread of the tracker state taken when the event was built. -/
structure LogEvent where
  type : LogEventType
  camera : Bool
  mic : Bool
deriving DecidableEq, Repr, Fintype

/-- The two manual directive kinds of `WSEvent.type`. -/
inductive WSDirective where
  | on_air
  | off_air
deriving DecidableEq, Repr, Fintype

/-- `PubSubEvent = LogEvent | WSEvent`. -/
inductive PubSubEvent where
  | log (e : LogEvent)
  | ws (d : WSDirective)
deriving DecidableEq, Repr, Fintype

/-! ## Line classifier (the line dispatch in `LogTailer.start`) -/

/-- JavaScript `line.includes(marker)`: case-sensitive substring
containment, over the underlying character sequences. -/
def includes (line marker : String) : Bool :=
  decide (marker.data <:+: line.data)

/-- The startup banner of `log stream`, skipped by an early `continue`. -/
def noiseMarker : String := "Filtering the log data using"

/-- Marker of a camera-connect line. -/
def cameraOnMarker : String := "ConnectClient"

/-- Marker of a camera-disconnect line. -/
def cameraOffMarker : String := "DisconnectClient"

/-- Marker of a mic-start line. -/
def micOnMarker : String := "Starting \x7b"

/-- Marker of a mic-stop line. -/
def micOffMarker : String := "Stopping \x7b"

/-- Result of classifying one raw line. -/
inductive LineClass where
  | noise
  | token (t : LogEventType)
  | unknown
deriving DecidableEq, Repr

/-- The ordered, first-match-wins dispatch on markers performed by the
body of `LogTailer.start`: the noise banner is checked first (`continue`),
then the four markers in source order, else the line is unknown. -/
def classifyLine (line : String) : LineClass :=
  if includes line noiseMarker then .noise
  else if includes line cameraOnMarker then .token .camera_on
  else if includes line cameraOffMarker then .token .camera_off
  else if includes line micOnMarker then .token .mic_on
  else if includes line micOffMarker then .token .mic_off
  else .unknown

/-! ## State tracker (the four mutation sites in `LogTailer.start`) -/

/-- The tracker mutation performed after delivering the event:
`state.camera = true` on `camera_on`, and so on. Each token writes only
its own field. -/
def applyToken (s : LogState) (t : LogEventType) : LogState :=
  match t with
  | .camera_on => { s with camera := true }
  | .camera_off => { s with camera := false }
  | .mic_on => { s with mic := true }
  | .mic_off => { s with mic := false }

/-- The event built before the mutation:
`const event = \x7b type, ...this.#state \x7d` — a value snapshot of the
state as it is at that moment, spread field by field into a fresh object. -/
def mkEvent (s : LogState) (t : LogEventType) : LogEvent :=
  { type := t, camera := s.camera, mic := s.mic }

/-- Processing of one line by the loop body of `LogTailer.start`:
returns the new tracker state, the list of events delivered to
subscribers for this line (built from the state before the mutation), and
whether the line was reported as an unknown log line.  A noise line is
skipped silently; a token line builds the event from the current state,
delivers it, then mutates the state; any other line is logged as unknown
and leaves the state untouched. -/
def processLine (s : LogState) (line : String) : LogState × List LogEvent × Bool :=
  match classifyLine line with
  | .noise => (s, [], false)
  | .token t => (applyToken s t, [mkEvent s t], false)
  | .unknown => (s, [], true)

/-- Running the tailer loop over a list of lines: threads the tracker
state and concatenates the emitted events in order. -/
def runLines : LogState → List String → LogState × List LogEvent
  | s, [] => (s, [])
  | s, l :: ls =>
    let r := processLine s l
    let rest := runLines r.1 ls
    (rest.1, r.2.1 ++ rest.2)

/-- Folding the tracker mutation over a token sequence. -/
def applyTokens (s : LogState) (ts : List LogEventType) : LogState :=
  ts.foldl applyToken s

/-! ## Actuator decision logic (the three pubsub subscriber factories) -/

/-- The light actions of `ILightController`. -/
inductive LightAction where
  | on
  | off
deriving DecidableEq, Repr, Fintype

/-- Decision of `hardwareSubscriberFactory`'s subscriber: for the four
hardware event types it runs the if chain (`camera_on` / `mic_on` turn the
light on; `camera_off` with `!state.mic`, or `mic_off` with
`!state.camera`, turn it off; otherwise nothing); a `ws` event matches no
case of the switch and does nothing. -/
def hardwareSubscriberAction : PubSubEvent → Option LightAction
  | .log e =>
    if e.type = .camera_on then some .on
    else if e.type = .mic_on then some .on
    else if e.type = .camera_off ∧ e.mic = false then some .off
    else if e.type = .mic_off ∧ e.camera = false then some .off
    else none
  | .ws _ => none

/-- Decision of `onAirSubscriberFactory`'s subscriber:
`if (event.type !== "on_air") return; await light.on()`. -/
def onAirSubscriberAction : PubSubEvent → Option LightAction
  | .ws .on_air => some .on
  | _ => none

/-- Decision of `offAirSubscriberFactory`'s subscriber:
`if (event.type !== "off_air") return; await light.off()`. -/
def offAirSubscriberAction : PubSubEvent → Option LightAction
  | .ws .off_air => some .off
  | _ => none

/-- Publishing a manual directive through the bus as wired in `main`: the
three light subscribers observe the event and produce their actions.  No
statement in `websocket.message`, `PubSub.publish` or any subscriber
writes the tailer's `#state` (the only writes are the four assignments in
`LogTailer.start`), so the tracker state is returned unchanged. -/
def publishDirective (s : LogState) (d : WSDirective) : LogState × List LightAction :=
  (s, [hardwareSubscriberAction (.ws d), onAirSubscriberAction (.ws d),
       offAirSubscriberAction (.ws d)].reduceOption)

/-! ## Rate limiters (`debounce`, `throttle`) with explicit virtual time

A wrapped handler is driven by a list of timed calls `(t, args)` with
nondecreasing times.  The run function returns the list of downstream
invocations as `(time, args)` pairs. -/

/-- Semantics of the `debounce` wrapper: each call clears any pending
timer and schedules `func` with its own arguments `delay` later.  A
pending timer set by call `(t, a)` is cancelled exactly when the next
call arrives strictly before `t + delay`; otherwise it has already fired
at `t + delay`.  The last call always fires, `delay` after it. -/
def debounceRun {α : Type} (delay : Nat) : List (Nat × α) → List (Nat × α)
  | [] => []
  | [(t, a)] => [(t + delay, a)]
  | (t, a) :: (t2, b) :: rest =>
    if t2 < t + delay then debounceRun delay ((t2, b) :: rest)
    else (t + delay, a) :: debounceRun delay ((t2, b) :: rest)

/-- A burst: consecutive calls each arrive strictly within `delay` of the
previous one, so each pending debounce timer is cancelled before firing. -/
def burst {α : Type} (delay : Nat) : List (Nat × α) → Bool
  | [] => true
  | [_] => true
  | (t, _) :: (t2, b) :: rest => (t2 < t + delay) && burst delay ((t2, b) :: rest)

/-- Semantics of the `throttle` wrapper: `t_prev` starts at `0`; a call at
time `t` is invoked immediately (and `t_prev` set to `t`) when
`t - t_prev ≥ delay`, and otherwise dropped entirely, leaving `t_prev`
unchanged. -/
def throttleRun {α : Type} (delay : Nat) : Nat → List (Nat × α) → List (Nat × α)
  | _, [] => []
  | tprev, (t, a) :: rest =>
    if delay ≤ t - tprev then (t, a) :: throttleRun delay t rest
    else throttleRun delay tprev rest

/-! ## Event bus (`PubSub`) and the websocket handlers

Callback functions are compared by JavaScript reference identity
(`sub !== subscriber`); handler identities are modelled as naturals. -/

/-- A handler identity (one per distinct function object). -/
abbrev Handler := Nat

/-- `PubSub.subscribe` (and `LogTailer.subscribe`): push the subscriber
onto the array. -/
def pubsubSubscribe (subs : List Handler) (h : Handler) : List Handler :=
  subs ++ [h]

/-- The unsubscribe closure returned by `subscribe`, and the body of
`LogTailer.unsubscribe`: replace the array by its filter keeping the
entries that are not identical to the captured subscriber. -/
def pubsubUnsubscribe (subs : List Handler) (h : Handler) : List Handler :=
  subs.filter (fun sub => sub ≠ h)

/-- `publish` runs `forEach`, invoking every currently registered
subscriber once in array order; the number of delivery attempts to a
handler is the number of its registrations in the array. -/
def publishDeliveries (subs : List Handler) (h : Handler) : Nat :=
  subs.count h

/-- One step of the `websocket.open` handler, as observable actions. -/
inductive OpenAction where
  | send (kind : String)
  | subscribeForwarder
deriving DecidableEq, Repr

/-- The `websocket.open` handler: sends `\x7b"type": "on"\x7d` when
`tailer.state.camera || tailer.state.mic`, else (when both are false)
sends `\x7b"type": "off"\x7d`, and then registers the per-connection
forwarding subscription on the bus. -/
def wsOpenTrace (s : LogState) : List OpenAction :=
  (if s.camera || s.mic then [OpenAction.send "on"]
   else if !s.camera && !s.mic then [OpenAction.send "off"]
   else []) ++ [OpenAction.subscribeForwarder]

/-- The subscriber-list effect of `websocket.open`: the forwarding
handler is pushed onto the bus. -/
def wsOpenSubscribe (subs : List Handler) (h : Handler) : List Handler :=
  pubsubSubscribe subs h

/-- The subscriber-list effect of `websocket.close`: the handler body is
an empty TODO comment, so the subscriber array is left untouched. -/
def wsCloseSubs (subs : List Handler) : List Handler :=
  subs

/-- A fragment of the JSON value universe, sufficient to express inbound
observer messages and the directive envelope shape. -/
inductive Json where
  | jnull
  | jbool (b : Bool)
  | jnum (n : Int)
  | jstr (s : String)
  | jobj (fields : List (String × Json))

/-- The six event-kind strings of the observer protocol envelope. -/
def directiveKinds : List String :=
  ["camera_on", "camera_off", "mic_on", "mic_off", "on_air", "off_air"]

/-- Whether a JSON value is a well-formed directive envelope
`\x7b"type": kind\x7d` with a recognised kind (the closed `PubSubEvent`
variant set at the boundary). -/
def isDirectiveEnvelope : Json → Bool
  | .jobj [("type", .jstr s)] => directiveKinds.contains s
  | _ => false

/-- The `websocket.message` handler:
`const event = JSON.parse(String(message)); pubsub.publish(event);`.
`parsed` is the outcome of `JSON.parse` on the raw text (`none` when the
text is not valid JSON, in which case the `SyntaxError` escapes the
handler, modelled as `.error ()`).  A successfully parsed value is
published onto the bus unconditionally — there is no validation, no
report and no discard.  `bus` is the list of values published so far. -/
def wsMessage (bus : List Json) (parsed : Option Json) : Except Unit (List Json) :=
  match parsed with
  | none => .error ()
  | some v => .ok (bus ++ [v])

/-! ## Helper lemmas -/

/-- Running the tailer over appended line lists threads the state and
concatenates the emitted events: events already emitted for a prefix are
unchanged by any further lines. -/
theorem runLines_append (s : LogState) (xs ys : List String) :
    runLines s (xs ++ ys) =
      ((runLines (runLines s xs).1 ys).1,
       (runLines s xs).2 ++ (runLines (runLines s xs).1 ys).2) := by
  induction xs generalizing s with
  | nil => simp [runLines]
  | cons l ls ih => simp [runLines, ih]

/-- A token sequence containing only mic tokens leaves `camera` fixed. -/
theorem applyTokens_camera_of_mic (s : LogState) (ts : List LogEventType)
    (h : ∀ t ∈ ts, t = .mic_on ∨ t = .mic_off) :
    (applyTokens s ts).camera = s.camera := by
  induction ts generalizing s with
  | nil => rfl
  | cons t ts ih =>
    have hrest : ∀ u ∈ ts, u = .mic_on ∨ u = .mic_off :=
      fun u hu => h u (List.mem_cons_of_mem t hu)
    have hstep := ih (applyToken s t) hrest
    rcases h t (List.mem_cons_self t ts) with h' | h' <;>
      subst h' <;> simpa [applyTokens, applyToken] using hstep

/-- A token sequence containing only camera tokens leaves `mic` fixed. -/
theorem applyTokens_mic_of_camera (s : LogState) (ts : List LogEventType)
    (h : ∀ t ∈ ts, t = .camera_on ∨ t = .camera_off) :
    (applyTokens s ts).mic = s.mic := by
  induction ts generalizing s with
  | nil => rfl
  | cons t ts ih =>
    have hrest : ∀ u ∈ ts, u = .camera_on ∨ u = .camera_off :=
      fun u hu => h u (List.mem_cons_of_mem t hu)
    have hstep := ih (applyToken s t) hrest
    rcases h t (List.mem_cons_self t ts) with h' | h' <;>
      subst h' <;> simpa [applyTokens, applyToken] using hstep

/-! ## Claim theorems -/

/-- Claim C1: actuator decision logic.  For every hardware transition
event, the light is turned ON exactly when the kind is `camera_on` or
`mic_on`; it is turned OFF exactly when the kind is `camera_off` with
`stateBefore.mic` false, or `mic_off` with `stateBefore.camera` false;
`camera_off` with mic still on and `mic_off` with camera still on produce
no action; a manual `on_air` directive turns the light ON and a manual
`off_air` directive turns it OFF. -/
theorem c1_actuator_decision :
    (∀ e : LogEvent,
      (hardwareSubscriberAction (.log e) = some .on ↔
        (e.type = .camera_on ∨ e.type = .mic_on)) ∧
      (hardwareSubscriberAction (.log e) = some .off ↔
        ((e.type = .camera_off ∧ e.mic = false) ∨
         (e.type = .mic_off ∧ e.camera = false))) ∧
      (hardwareSubscriberAction (.log e) = none ↔
        ((e.type = .camera_off ∧ e.mic = true) ∨
         (e.type = .mic_off ∧ e.camera = true)))) ∧
    onAirSubscriberAction (.ws .on_air) = some .on ∧
    offAirSubscriberAction (.ws .off_air) = some .off := by
  decide

/-- Claim C2: for every classified token, the emitted event is built from
the tracker state as it was before the transition (its `camera`/`mic`
fields are the pre-transition snapshot, and the new state is the token
applied to that snapshot), and the emitted-event list for a prefix of
lines is unchanged by processing further lines — the event is a value
snapshot, not an alias of the live mutable state. -/
theorem c2_event_snapshot (s : LogState) (line : String) (t : LogEventType)
    (xs ys : List String)
    (h : classifyLine line = .token t) :
    processLine s line = (applyToken s t, [⟨t, s.camera, s.mic⟩], false) ∧
    (runLines s (xs ++ ys)).2 =
      (runLines s xs).2 ++ (runLines (runLines s xs).1 ys).2 := by
  constructor
  · simp [processLine, h, mkEvent]
  · rw [runLines_append]

/-- Witness for C2 at a concrete camera-connect line. -/
theorem c2_event_snapshot_witness :
    processLine ⟨false, true⟩ "xx ConnectClient yy" =
      (applyToken ⟨false, true⟩ .camera_on, [⟨.camera_on, false, true⟩], false) ∧
    (runLines ⟨false, true⟩ (["xx ConnectClient yy"] ++ ["zz Stopping \x7b ww"])).2 =
      (runLines ⟨false, true⟩ ["xx ConnectClient yy"]).2 ++
        (runLines (runLines ⟨false, true⟩ ["xx ConnectClient yy"]).1
          ["zz Stopping \x7b ww"]).2 :=
  c2_event_snapshot ⟨false, true⟩ "xx ConnectClient yy" .camera_on
    ["xx ConnectClient yy"] ["zz Stopping \x7b ww"] (by decide)

/-- Claim C8: a line containing the noise marker yields no token and is
not reported; a line is unknown exactly when it contains none of the
noise marker and the four transition markers; an unknown line yields no
token, is reported, and leaves the state untouched; matching is ordered
with first match winning (a non-noise line containing the camera-connect
marker classifies as `camera_on` whatever else it contains). -/
theorem c8_line_classification (line lnoise lcam : String) (s : LogState)
    (h1 : includes lnoise noiseMarker = true)
    (h2 : includes lcam noiseMarker = false)
    (h3 : includes lcam cameraOnMarker = true) :
    (classifyLine lnoise = .noise ∧ processLine s lnoise = (s, [], false)) ∧
    classifyLine lcam = .token .camera_on ∧
    (classifyLine line = .unknown ↔
      (includes line noiseMarker = false ∧ includes line cameraOnMarker = false ∧
       includes line cameraOffMarker = false ∧ includes line micOnMarker = false ∧
       includes line micOffMarker = false)) ∧
    (classifyLine line = .unknown → processLine s line = (s, [], true)) := by
  refine ⟨⟨?_, ?_⟩, ?_, ?_, ?_⟩
  · simp [classifyLine, h1]
  · simp [processLine, classifyLine, h1]
  · simp [classifyLine, h2, h3]
  · unfold classifyLine
    cases ha : includes line noiseMarker <;>
      cases hb : includes line cameraOnMarker <;>
        cases hc : includes line cameraOffMarker <;>
          cases hd : includes line micOnMarker <;>
            cases he : includes line micOffMarker <;> simp
  · intro hu
    simp [processLine, hu]

/-- Witness for C8: the noise line also contains a camera marker (noise
wins), and the camera line also contains a mic-stop marker (first match
wins). -/
theorem c8_line_classification_witness :
    (classifyLine "Filtering the log data using ConnectClient" = .noise ∧
      processLine ⟨true, false⟩ "Filtering the log data using ConnectClient" =
        (⟨true, false⟩, [], false)) ∧
    classifyLine "a ConnectClient plus Stopping \x7b" = .token .camera_on ∧
    (classifyLine "garbage" = .unknown ↔
      (includes "garbage" noiseMarker = false ∧
       includes "garbage" cameraOnMarker = false ∧
       includes "garbage" cameraOffMarker = false ∧
       includes "garbage" micOnMarker = false ∧
       includes "garbage" micOffMarker = false)) ∧
    (classifyLine "garbage" = .unknown →
      processLine ⟨true, false⟩ "garbage" = (⟨true, false⟩, [], true)) :=
  c8_line_classification "garbage" "Filtering the log data using ConnectClient"
    "a ConnectClient plus Stopping \x7b" ⟨true, false⟩
    (by decide) (by decide) (by decide)

/-- Claim C9: frame property of the tracker.  The `camera` field is
unchanged by any sequence of mic tokens and by each single mic token, the
`mic` field is unchanged by any sequence of camera tokens and by each
single camera token, and publishing a manual directive leaves the tracked
state entirely unchanged. -/
theorem c9_frame (s : LogState) (ts₁ ts₂ : List LogEventType) (d : WSDirective)
    (h1 : ∀ t ∈ ts₁, t = .mic_on ∨ t = .mic_off)
    (h2 : ∀ t ∈ ts₂, t = .camera_on ∨ t = .camera_off) :
    (applyTokens s ts₁).camera = s.camera ∧
    (applyTokens s ts₂).mic = s.mic ∧
    (applyToken s .mic_on).camera = s.camera ∧
    (applyToken s .mic_off).camera = s.camera ∧
    (applyToken s .camera_on).mic = s.mic ∧
    (applyToken s .camera_off).mic = s.mic ∧
    (publishDirective s d).1 = s :=
  ⟨applyTokens_camera_of_mic s ts₁ h1, applyTokens_mic_of_camera s ts₂ h2,
   rfl, rfl, rfl, rfl, rfl⟩

/-- Witness for C9 at concrete token sequences and a concrete directive. -/
theorem c9_frame_witness :
    (applyTokens ⟨true, false⟩ [.mic_on, .mic_off]).camera =
      (⟨true, false⟩ : LogState).camera ∧
    (applyTokens ⟨true, false⟩ [.camera_on, .camera_off]).mic =
      (⟨true, false⟩ : LogState).mic ∧
    (applyToken ⟨true, false⟩ .mic_on).camera =
      (⟨true, false⟩ : LogState).camera ∧
    (applyToken ⟨true, false⟩ .mic_off).camera =
      (⟨true, false⟩ : LogState).camera ∧
    (applyToken ⟨true, false⟩ .camera_on).mic =
      (⟨true, false⟩ : LogState).mic ∧
    (applyToken ⟨true, false⟩ .camera_off).mic =
      (⟨true, false⟩ : LogState).mic ∧
    (publishDirective ⟨true, false⟩ .on_air).1 = (⟨true, false⟩ : LogState) :=
  c9_frame ⟨true, false⟩ [.mic_on, .mic_off] [.camera_on, .camera_off] .on_air
    (by decide) (by decide)

/-- Every downstream invocation made by the throttle wrapper is one of
the original calls, delivered at its own call time with its own
arguments: nothing is buffered and nothing fires later. -/
theorem throttleRun_subset {α : Type} (delay : Nat) :
    ∀ (calls : List (Nat × α)) (tprev : Nat) (p : Nat × α),
      p ∈ throttleRun delay tprev calls → p ∈ calls
  | [], _, p, hp => by simp [throttleRun] at hp
  | (t, x) :: rest, tprev, p, hp => by
    by_cases h : delay ≤ t - tprev
    · simp only [throttleRun, if_pos h, List.mem_cons] at hp
      rcases hp with h' | h'
      · simp [h']
      · exact List.mem_cons_of_mem _ (throttleRun_subset delay rest t p h')
    · simp only [throttleRun, if_neg h] at hp
      exact List.mem_cons_of_mem _ (throttleRun_subset delay rest tprev p hp)

/-- Claim C3: debounce.  For every nonempty burst of calls (each call
strictly within the window of the previous one), exactly the last call's
arguments are delivered, exactly one window after the last call. -/
theorem c3_debounce {α : Type} (delay : Nat) :
    ∀ (calls : List (Nat × α)) (hne : calls ≠ []),
      burst delay calls = true →
      debounceRun delay calls =
        [((calls.getLast hne).1 + delay, (calls.getLast hne).2)]
  | [], hne, _ => absurd rfl hne
  | [(t, a)], _, _ => by simp [debounceRun, List.getLast]
  | (t, a) :: (t2, b) :: rest, hne, hb => by
    have hb2 : t2 < t + delay ∧ burst delay ((t2, b) :: rest) = true := by
      simpa [burst] using hb
    have ih := c3_debounce delay ((t2, b) :: rest) (by simp) hb2.2
    simp only [debounceRun, if_pos hb2.1, ih]
    simp [List.getLast]

/-- Witness for C3: calls at t = 0, 100, 200 with window 500 yield
exactly one invocation, at t = 700, with the t = 200 call's argument. -/
theorem c3_debounce_witness :
    debounceRun 500 [((0 : Nat), (1 : Nat)), (100, 2), (200, 3)] = [(700, 3)] :=
  (c3_debounce 500 [(0, 1), (100, 2), (200, 3)] (by decide) (by decide)).trans
    (by decide)

/-- Claim C4 counterexample: the throttle wrapper initialises `t_prev` to
absolute time 0, so with calls at absolute times 0, 100, 600 and window
500 the call at t = 0 is dropped (`0 - 0 ≥ 500` fails) and the only
downstream invocation is at t = 600 — not the claimed invocations at
t = 0 and t = 600. -/
theorem c4_throttle_counterexample :
    throttleRun 500 0 [((0 : Nat), (1 : Nat)), (100, 2), (600, 3)] = [(600, 3)] ∧
    [((600 : Nat), (3 : Nat))] ≠ [(0, 1), (600, 3)] := by
  decide

/-- Claim C4 as amended: a call is delivered immediately (at its own call
time, with its own arguments, no buffering and no trailing delivery) when
at least the window has elapsed since the value of `t_prev` — the time of
the last accepted call, initially absolute time 0 — and dropped
otherwise, leaving `t_prev` unchanged; the claimed scenario holds for
calls at T, T+100, T+600 whenever the clock base satisfies T ≥ 500. -/
theorem c4_throttle_amended {α : Type} (T : Nat) (hT : 500 ≤ T) (a b c : α)
    (delay tprev : Nat) (calls : List (Nat × α)) :
    throttleRun 500 0 [(T, a), (T + 100, b), (T + 600, c)] = [(T, a), (T + 600, c)] ∧
    (∀ p ∈ throttleRun delay tprev calls, p ∈ calls) ∧
    (∀ (t : Nat) (x : α) (rest : List (Nat × α)), t - tprev < delay →
      throttleRun delay tprev ((t, x) :: rest) = throttleRun delay tprev rest) ∧
    (∀ (t : Nat) (x : α) (rest : List (Nat × α)), delay ≤ t - tprev →
      throttleRun delay tprev ((t, x) :: rest) = (t, x) :: throttleRun delay t rest) := by
  refine ⟨?_, throttleRun_subset delay calls tprev, ?_, ?_⟩
  · have h1 : (500 : Nat) ≤ T - 0 := by omega
    have h2 : ¬ (500 : Nat) ≤ T + 100 - T := by omega
    have h3 : (500 : Nat) ≤ T + 600 - T := by omega
    simp only [throttleRun]
    rw [if_pos h1, if_neg h2, if_pos h3]
  · intro t x rest h
    have h' := not_le.mpr h
    simp [throttleRun, h']
  · intro t x rest h
    simp [throttleRun, h]

/-- Witness for C4 as amended, with clock base T = 500. -/
theorem c4_throttle_amended_witness :
    throttleRun 500 0 [((500 : Nat), (1 : Nat)), (500 + 100, 2), (500 + 600, 3)] =
      [(500, 1), (500 + 600, 3)] :=
  (c4_throttle_amended 500 (by decide) 1 2 3 500 0 []).1

/-- Claim C5 evaluated at the failing input: the `websocket.close`
handler's body is an empty TODO, so after opening one observer connection
(registering its forwarding handler, id 0, on an empty bus) and then
closing it, a publish still makes one delivery attempt to the former
handler instead of the claimed zero. -/
theorem c5_close_leak :
    publishDeliveries (wsCloseSubs (wsOpenSubscribe [] 0)) 0 = 1 := by
  decide

/-- Claim C6 evaluated at the failing inputs: the `websocket.message`
handler performs no validation — a message that parses as JSON but is not
a directive envelope (here `\x7b"type": "bogus"\x7d`) is published to the
bus rather than discarded, and a message that is not valid JSON makes
`JSON.parse` throw, so an error escapes the handler. -/
theorem c6_message_no_validation :
    isDirectiveEnvelope (Json.jobj [("type", Json.jstr "bogus")]) = false ∧
    wsMessage [] (some (Json.jobj [("type", Json.jstr "bogus")])) =
      Except.ok [Json.jobj [("type", Json.jstr "bogus")]] ∧
    wsMessage [] none = Except.error () :=
  ⟨by decide, rfl, rfl⟩

/-- Claim C7 counterexample: with camera on and mic off, the envelope
sent on observer connect carries kind `"on"`, not the claimed
`"on_air"`. -/
theorem c7_open_counterexample :
    wsOpenTrace ⟨true, false⟩ =
      [OpenAction.send "on", OpenAction.subscribeForwarder] ∧
    ("on" : String) ≠ "on_air" := by
  decide

/-- Claim C7 as amended: on every observer connect, the server sends
exactly one envelope, before registering that connection's forwarding
subscription, with kind `"on"` when camera OR mic is true in the current
tracked state and `"off"` otherwise. -/
theorem c7_open_amended (s : LogState) :
    wsOpenTrace s =
      [OpenAction.send (if s.camera || s.mic then "on" else "off"),
       OpenAction.subscribeForwarder] := by
  obtain ⟨c, m⟩ := s
  cases c <;> cases m <;> rfl

/-- Claim C10: subscribing the same handler twice and invoking an
unsubscribe token once removes every registration of that handler
(removal filters by function identity), so a publish afterwards delivers
zero invocations to it; invoking the token again is a no-op that leaves
the subscriber list unchanged. -/
theorem c10_unsubscribe_by_identity (subs : List Handler) (h : Handler) :
    publishDeliveries
      (pubsubUnsubscribe (pubsubSubscribe (pubsubSubscribe subs h) h) h) h = 0 ∧
    pubsubUnsubscribe
      (pubsubUnsubscribe (pubsubSubscribe (pubsubSubscribe subs h) h) h) h =
      pubsubUnsubscribe (pubsubSubscribe (pubsubSubscribe subs h) h) h := by
  constructor
  · simp [publishDeliveries, pubsubUnsubscribe, List.count_eq_zero,
      List.mem_filter]
  · simp [pubsubUnsubscribe, List.filter_filter]

end OnAir
